import Mathlib

/-!
# Verification of the `mpser` MessagePack codec

Shallow embedding of `src/mp.py` (marker table) and `src/mpser.py`
(`MPWrite` encoder, `MPRead` decoder).  Byte buffers are `List ℕ` with each
entry a byte value, Python `int` is `ℤ`, Python `str` is a list of Unicode
code points, Python `float` is modelled by its exact rational value as a
sign together with numerator and denominator naturals.

Python-specific semantics that matter and are modelled explicitly:
* `value & mask` on a (possibly negative) `int` with an all-ones mask
  `2^k - 1` is the Euclidean remainder `value % 2^k` (two's-complement low
  bits), which matches Lean's `Int.emod` for a positive modulus;
* `isinstance(value, int)` is `True` for `bool` values, so `_write_any`
  routes booleans through the integer branch, never reaching `write_bool`;
* the guards `assert t not in MsgPackType` in the write helpers always pass
  when `t` is a `MsgPackMarker` member (a `MsgPackMarker` is never a member
  of the distinct `MsgPackType` enum), so they are modelled as no-ops;
* `struct.pack("b", x)` (signed char) raises `struct.error` for `x > 127`,
  and `struct.unpack` raises `struct.error` when given fewer bytes than the
  format requires (`BytesIO.read` returns short reads silently);
* `MsgPackMarker(value)` raises `ValueError` when `value` is not a member
  value; a `match` statement with no matching case falls through and the
  function returns `None`.
-/

namespace Mpser

/-- The marker enumeration of `mp.py` (`class MsgPackMarker`). -/
inductive MsgPackMarker where
  | PositiveFixInt
  | NegativeFixInt
  | FixMap
  | FixArray
  | FixStr
  | Nil
  | UNUSED
  | BoolFalse
  | BoolTrue
  | Bin8
  | Bin16
  | Bin32
  | Ext8
  | Ext16
  | Ext32
  | Float32
  | Float64
  | UInt8
  | UInt16
  | UInt32
  | UInt64
  | Int8
  | Int16
  | Int32
  | Int64
  | FixExt1
  | FixExt2
  | FixExt4
  | FixExt8
  | FixExt16
  | Str8
  | Str16
  | Str32
  | Array16
  | Array32
  | Map16
  | Map32
  deriving DecidableEq, Repr

/-- The `value` of each `MsgPackMarker` member, as assigned in `mp.py`. -/
def MsgPackMarker.value : MsgPackMarker → ℕ
  | .PositiveFixInt => 0x00
  | .NegativeFixInt => 0xE0
  | .FixMap => 0x80
  | .FixArray => 0x90
  | .FixStr => 0xA0
  | .Nil => 0xC0
  | .UNUSED => 0xC1
  | .BoolFalse => 0xC2
  | .BoolTrue => 0xC3
  | .Bin8 => 0xC4
  | .Bin16 => 0xC5
  | .Bin32 => 0xC6
  | .Ext8 => 0xC7
  | .Ext16 => 0xC8
  | .Ext32 => 0xC9
  | .Float32 => 0xCA
  | .Float64 => 0xCB
  | .UInt8 => 0xCC
  | .UInt16 => 0xCD
  | .UInt32 => 0xCE
  | .UInt64 => 0xCF
  | .Int8 => 0xD0
  | .Int16 => 0xD1
  | .Int32 => 0xD2
  | .Int64 => 0xD3
  | .FixExt1 => 0xD4
  | .FixExt2 => 0xD5
  | .FixExt4 => 0xD6
  | .FixExt8 => 0xD7
  | .FixExt16 => 0xD8
  | .Str8 => 0xD9
  | .Str16 => 0xDA
  | .Str32 => 0xDB
  | .Array16 => 0xDC
  | .Array32 => 0xDD
  | .Map16 => 0xDE
  | .Map32 => 0xDF

/-- Python enum value lookup `MsgPackMarker(n)`: `some` member whose value
is `n`, else `none` (Python raises `ValueError`). -/
def markerOfNat (n : ℕ) : Option MsgPackMarker :=
  match n with
  | 0x00 => some .PositiveFixInt
  | 0xE0 => some .NegativeFixInt
  | 0x80 => some .FixMap
  | 0x90 => some .FixArray
  | 0xA0 => some .FixStr
  | 0xC0 => some .Nil
  | 0xC1 => some .UNUSED
  | 0xC2 => some .BoolFalse
  | 0xC3 => some .BoolTrue
  | 0xC4 => some .Bin8
  | 0xC5 => some .Bin16
  | 0xC6 => some .Bin32
  | 0xC7 => some .Ext8
  | 0xC8 => some .Ext16
  | 0xC9 => some .Ext32
  | 0xCA => some .Float32
  | 0xCB => some .Float64
  | 0xCC => some .UInt8
  | 0xCD => some .UInt16
  | 0xCE => some .UInt32
  | 0xCF => some .UInt64
  | 0xD0 => some .Int8
  | 0xD1 => some .Int16
  | 0xD2 => some .Int32
  | 0xD3 => some .Int64
  | 0xD4 => some .FixExt1
  | 0xD5 => some .FixExt2
  | 0xD6 => some .FixExt4
  | 0xD7 => some .FixExt8
  | 0xD8 => some .FixExt16
  | 0xD9 => some .Str8
  | 0xDA => some .Str16
  | 0xDB => some .Str32
  | 0xDC => some .Array16
  | 0xDD => some .Array32
  | 0xDE => some .Map16
  | 0xDF => some .Map32
  | _ => none

/-- Python-level failures that the source can raise (or Python raises for
it): the three `assert` statements of `mpser.py`, `struct.error` and
`OverflowError` from the `struct` module, `ValueError` from an enum lookup
with an undefined value, and the explicit `raise ValueError` for an
unsupported type in `_write_any`. -/
inductive PyErr where
  | assertIntTooLarge
  | assertStrTooLong
  | assertMapTooLong
  | structError
  | overflowError
  | enumValueError
  | valueErrorUnsupported
  deriving DecidableEq, Repr

/-- Python `v & (2^k - 1)` on an arbitrary-precision integer: the
two's-complement low `k` bits, i.e. the Euclidean remainder mod `2^k`. -/
def maskBits (v : ℤ) (k : ℕ) : ℕ :=
  (v % (2 ^ k : ℤ)).toNat

/-- Big-endian 2-byte encoding, as `struct.pack(">H", n)`. -/
def be16 (n : ℕ) : List ℕ :=
  [n / 2 ^ 8 % 2 ^ 8, n % 2 ^ 8]

/-- Big-endian 4-byte encoding, as `struct.pack(">I", n)`. -/
def be32 (n : ℕ) : List ℕ :=
  [n / 2 ^ 24 % 2 ^ 8, n / 2 ^ 16 % 2 ^ 8, n / 2 ^ 8 % 2 ^ 8, n % 2 ^ 8]

/-- Big-endian 8-byte encoding, as `struct.pack(">Q", n)`. -/
def be64 (n : ℕ) : List ℕ :=
  [n / 2 ^ 56 % 2 ^ 8, n / 2 ^ 48 % 2 ^ 8, n / 2 ^ 40 % 2 ^ 8,
   n / 2 ^ 32 % 2 ^ 8, n / 2 ^ 24 % 2 ^ 8, n / 2 ^ 16 % 2 ^ 8,
   n / 2 ^ 8 % 2 ^ 8, n % 2 ^ 8]

/-- `MPWrite.write_integer(value, t)`: the bytes appended to the buffer, or
the Python-level error raised.  The initial `assert t not in MsgPackType`
always passes for a `MsgPackMarker` argument and is omitted.  The
`UInt8`/`Int8` case calls `struct.pack("b", value & 0xFF)` with a *signed*
format, so it raises `struct.error` when the masked byte exceeds 127.
Markers outside the cases of the `match` fall through: nothing is written
and no error is raised. -/
def write_integer (value : ℤ) (t : MsgPackMarker) : Except PyErr (List ℕ) :=
  match t with
  | .PositiveFixInt => .ok [maskBits value 7]
  | .NegativeFixInt => .ok [0xE0 + maskBits value 5]
  | .UInt8 | .Int8 =>
    let b := maskBits value 8
    if b ≤ 127 then .ok [t.value, b] else .error .structError
  | .UInt16 | .Int16 => .ok (t.value :: be16 (maskBits value 16))
  | .UInt32 | .Int32 => .ok (t.value :: be32 (maskBits value 32))
  | .UInt64 | .Int64 => .ok (t.value :: be64 (maskBits value 64))
  | _ => .ok []

/-- Round-half-to-even of the quotient `a / b` (`b > 0`): the rounding used
by IEEE-754 conversion, hence by `struct.pack` with a float format. -/
def roundHalfEven (a b : ℕ) : ℕ :=
  let q := a / b
  let r := a % b
  if 2 * r < b then q
  else if b < 2 * r then q + 1
  else if q % 2 = 0 then q else q + 1

/-- Does `2^e ≤ num / den` hold, over naturals (`den > 0`)? -/
def twoPowLe (num den : ℕ) (e : ℤ) : Bool :=
  if 0 ≤ e then den * 2 ^ e.toNat ≤ num else den ≤ num * 2 ^ (-e).toNat

/-- Largest `e` in `[lo, lo + steps)` with `2^e ≤ num / den`, or `lo - 1`
when none: a bounded-search binary logarithm for positive rationals. -/
def floorLog2From (lo : ℤ) (steps num den : ℕ) : ℤ :=
  (List.range steps).foldl
    (fun acc i => if twoPowLe num den (lo + i) then lo + i else acc) (lo - 1)

/-- IEEE-754 binary32 bit pattern of the real number
`(-1)^sign * num / den` (`den > 0`), rounding to nearest, ties to even:
the external behaviour of `struct.pack(">f", x)`, including the
`OverflowError` Python raises when the value does not fit.  Exponent search
is bounded to `[-152, 141]`, which covers every magnitude that does not
round to zero or overflow at this precision. -/
def pack_f32bits (sign : Bool) (num den : ℕ) : Except PyErr ℕ :=
  let sbit := if sign then 2 ^ 31 else 0
  if num = 0 then .ok sbit
  else
    let e := floorLog2From (-152) 294 num den
    if -126 ≤ e then
      let mant :=
        if 0 ≤ 23 - e then roundHalfEven (num * 2 ^ (23 - e).toNat) den
        else roundHalfEven num (den * 2 ^ (e - 23).toNat)
      let e2 := if mant = 2 ^ 24 then e + 1 else e
      let m2 := if mant = 2 ^ 24 then 2 ^ 23 else mant
      if 127 < e2 then .error .overflowError
      else .ok (sbit + (e2 + 127).toNat * 2 ^ 23 + (m2 - 2 ^ 23))
    else
      let mant := roundHalfEven (num * 2 ^ 149) den
      if 2 ^ 23 ≤ mant then .ok (sbit + 2 ^ 23)
      else .ok (sbit + mant)

/-- IEEE-754 binary64 bit pattern of `(-1)^sign * num / den`: the external
behaviour of `struct.pack(">d", x)`.  Same construction as `pack_f32bits`
with the 64-bit field widths and a wider exponent search. -/
def pack_f64bits (sign : Bool) (num den : ℕ) : Except PyErr ℕ :=
  let sbit := if sign then 2 ^ 63 else 0
  if num = 0 then .ok sbit
  else
    let e := floorLog2From (-1080) 2120 num den
    if -1022 ≤ e then
      let mant :=
        if 0 ≤ 52 - e then roundHalfEven (num * 2 ^ (52 - e).toNat) den
        else roundHalfEven num (den * 2 ^ (e - 52).toNat)
      let e2 := if mant = 2 ^ 53 then e + 1 else e
      let m2 := if mant = 2 ^ 53 then 2 ^ 52 else mant
      if 1023 < e2 then .error .overflowError
      else .ok (sbit + (e2 + 1023).toNat * 2 ^ 52 + (m2 - 2 ^ 52))
    else
      let mant := roundHalfEven (num * 2 ^ 1074) den
      if 2 ^ 52 ≤ mant then .ok (sbit + 2 ^ 52)
      else .ok (sbit + mant)

/-- `MPWrite.write_float(value, t)`: the float value is carried as its
exact rational `(-1)^sign * num / den`.  The vacuous `assert` is omitted
(see the module comment); markers other than `Float32`/`Float64` fall
through the `match` and write nothing. -/
def write_float (sign : Bool) (num den : ℕ) (t : MsgPackMarker) :
    Except PyErr (List ℕ) :=
  match t with
  | .Float32 => (pack_f32bits sign num den).map (fun w => 0xCA :: be32 w)
  | .Float64 => (pack_f64bits sign num den).map (fun w => 0xCB :: be64 w)
  | _ => .ok []

/-- UTF-8 encoding of one Unicode code point, as Python `str.encode("utf8")`
produces for each character. -/
def utf8EncodeChar (c : ℕ) : List ℕ :=
  if c < 0x80 then [c]
  else if c < 0x800 then
    [0xC0 + c / 0x40, 0x80 + c % 0x40]
  else if c < 0x10000 then
    [0xE0 + c / 0x1000, 0x80 + c / 0x40 % 0x40, 0x80 + c % 0x40]
  else
    [0xF0 + c / 0x40000, 0x80 + c / 0x1000 % 0x40,
     0x80 + c / 0x40 % 0x40, 0x80 + c % 0x40]

/-- UTF-8 encoding of a string given as its list of code points. -/
def utf8Encode (s : List ℕ) : List ℕ :=
  (s.map utf8EncodeChar).flatten

/-- `MPWrite.write_str(value, t)` for a `str` argument (list of code
points): the bytes appended.  `length` is `len(value)`, the *character*
count; each case slices the string by characters (`value[: length & mask]`)
and then UTF-8-encodes the slice, while the marker or length field carries
the masked character count.  Markers outside the `match` fall through and
write nothing.  (The `bytearray` branch of the source differs only in
skipping the UTF-8 step and is not needed by any claim.) -/
def write_str (s : List ℕ) (t : MsgPackMarker) : List ℕ :=
  let length := s.length
  match t with
  | .FixStr =>
    (0xA0 + length % 2 ^ 5) :: utf8Encode (s.take (length % 2 ^ 32))
  | .Str8 | .Bin8 =>
    t.value :: (length % 2 ^ 8) :: utf8Encode (s.take (length % 2 ^ 8))
  | .Str16 | .Bin16 =>
    t.value :: be16 (length % 2 ^ 16) ++ utf8Encode (s.take (length % 2 ^ 16))
  | .Str32 | .Bin32 =>
    t.value :: be32 (length % 2 ^ 32) ++ utf8Encode (s.take (length % 2 ^ 32))
  | _ => []

/-- `MPWrite.write_bool(value)`: one marker byte, `0xC3` for `True` and
`0xC2` for `False`. -/
def write_bool (value : Bool) : List ℕ :=
  [if value then 0xC3 else 0xC2]

/-- `MPWrite.write_nil()`: the single `Nil` marker byte. -/
def write_nil : List ℕ :=
  [0xC0]

/-- Is `t` one of the ten markers that `write_integer`'s `match` handles? -/
def isIntegerMarker : MsgPackMarker → Bool
  | .PositiveFixInt | .NegativeFixInt
  | .UInt8 | .UInt16 | .UInt32 | .UInt64
  | .Int8 | .Int16 | .Int32 | .Int64 => true
  | _ => false

/-- The dynamic values `_write_any` dispatches on: Python `int`, `bool`,
`str`, `float`, `list`, `dict` and `None`.  A `float` is carried as its
exact rational value; a `dict` as its insertion-ordered key/value pairs. -/
inductive PyVal where
  | int (n : ℤ)
  | bool (b : Bool)
  | str (s : List ℕ)
  | float (sign : Bool) (num den : ℕ)
  | list (xs : List PyVal)
  | dict (kvs : List (PyVal × PyVal))
  | noneV

/-- The `isinstance(value, int)` branch of `_write_any`: the guarding
`assert value <= 0xFFFFFFFFFFFFFFFF`, then the width ladder of the source
(`<= 0x7F` positive fixint, `<= 0xFFFF` uint16, `<= 0xFFFFFFFF` uint32,
else uint64 — there is no uint8 step and no negative or signed handling). -/
def writeAnyInt (n : ℤ) : Except PyErr (List ℕ) :=
  if n ≤ 0xFFFFFFFFFFFFFFFF then
    if n ≤ 0x7F then write_integer n .PositiveFixInt
    else if 0x7F < n ∧ n ≤ 0xFFFF then write_integer n .UInt16
    else if 0xFFFF < n ∧ n ≤ 0xFFFFFFFF then write_integer n .UInt32
    else write_integer n .UInt64
  else .error .assertIntTooLarge

/-- The `isinstance(value, str)` branch of `_write_any`: the guarding
`assert length < 0xFFFFFFFF` (strict), then the source's ladder, which
selects `Str8` for every length up to `0xFF`, `Str16` up to `0xFFFF`, then
`FixStr` up to `0xFFFFFFFF`, with `Str32` in the unreachable `else`. -/
def writeAnyStr (s : List ℕ) : Except PyErr (List ℕ) :=
  let length := s.length
  if length < 0xFFFFFFFF then
    if length ≤ 0xFF then .ok (write_str s .Str8)
    else if 0xFF < length ∧ length ≤ 0xFFFF then .ok (write_str s .Str16)
    else if 0xFFFF < length ∧ length ≤ 0xFFFFFFFF then .ok (write_str s .FixStr)
    else .ok (write_str s .Str32)
  else .error .assertStrTooLong

/-- The length header `MPWrite.write_array` emits before the elements;
markers outside its `match` write no header (the elements still follow). -/
def write_array_header (length : ℕ) (t : MsgPackMarker) : List ℕ :=
  match t with
  | .FixArray => [0x90 + length % 2 ^ 4]
  | .Array16 => 0xDC :: be16 (length % 2 ^ 16)
  | .Array32 => 0xDD :: be32 (length % 2 ^ 32)
  | _ => []

/-- The array marker `_write_any` selects for a `list` of length `n`:
`FixArray` unless `0xF < n ≤ 0xFFFF` (`Array16`) or `0xFFFF < n`
(`Array32`). -/
def arrayMarkerFor (n : ℕ) : MsgPackMarker :=
  if 0xF < n ∧ n ≤ 0xFFFF then .Array16
  else if 0xFFFF < n then .Array32
  else .FixArray

/-- The `assert` and length header of `MPWrite.write_map`, before the
key/value pairs are written. -/
def write_map_header (length : ℕ) : Except PyErr (List ℕ) :=
  if length ≤ 0xFFFFFFFF then
    if length ≤ 0xF then .ok [0x80 + length % 2 ^ 4]
    else if 0xF < length ∧ length ≤ 0xFFFF then .ok (0xDE :: be16 (length % 2 ^ 16))
    else .ok (0xDF :: be32 (length % 2 ^ 32))
  else .error .assertMapTooLong

mutual

/-- `MPWrite._write_any(value)`: the bytes the call appends to the buffer,
or the Python-level error it raises.  Branch order follows the source's
`isinstance` chain; in particular Python's `isinstance(value, int)` is
`True` for `bool`, so booleans take the integer branch (with `True = 1`,
`False = 0`) and the later `write_bool` branch is unreachable.  Floats are
always written with the `Float32` marker. -/
def writeAny : PyVal → Except PyErr (List ℕ)
  | .int n => writeAnyInt n
  | .bool b => writeAnyInt (if b then 1 else 0)
  | .str s => writeAnyStr s
  | .float sign num den => write_float sign num den .Float32
  | .list xs =>
    (writeList xs).map (fun body =>
      write_array_header xs.length (arrayMarkerFor xs.length) ++ body)
  | .dict kvs =>
    (write_map_header kvs.length).bind (fun hd =>
      (writePairs kvs).map (fun body => hd ++ body))
  | .noneV => .ok write_nil

/-- The element loop of `MPWrite.write_array`: each element through
`_write_any`, in order. -/
def writeList : List PyVal → Except PyErr (List ℕ)
  | [] => .ok []
  | x :: xs =>
    (writeAny x).bind (fun a => (writeList xs).map (fun b => a ++ b))

/-- The pair loop of `MPWrite.write_map`: each key then its value through
`_write_any`, in insertion order. -/
def writePairs : List (PyVal × PyVal) → Except PyErr (List ℕ)
  | [] => .ok []
  | (k, v) :: kvs =>
    (writeAny k).bind (fun a =>
      (writeAny v).bind (fun b =>
        (writePairs kvs).map (fun c => a ++ b ++ c)))

end

/-- The values a call to `MPRead.read_int` can produce: a plain integer,
the 1-tuple that `struct.unpack` returns when its result is not indexed
with `[0]`, or Python `None` from falling through the `match`. -/
inductive PyIntVal where
  | int (n : ℤ)
  | tuple1 (n : ℤ)
  | noneVal
  deriving DecidableEq, Repr

/-- Two's-complement reading of a `w`-bit unsigned value `n`, as the signed
`struct` formats do. -/
def signedOf (w n : ℕ) : ℤ :=
  if n < 2 ^ (w - 1) then (n : ℤ) else (n : ℤ) - 2 ^ w

/-- `MPRead.read_int()` on a buffer positioned at `buf`: first byte read
(empty read gives `b""`, making `int.from_bytes` return `0` and the
following `struct.unpack("B", b"")` raise `struct.error`); the two fixint
bit-pattern tests; then the enum lookup `MsgPackMarker(value)` (raising
`ValueError` for an undefined byte) and the `match` over the integer
markers, whose `UInt8`/`Int8` cases return the *tuple* from
`struct.unpack` unindexed, and which returns `None` for every marker
outside its cases. -/
def read_int (buf : List ℕ) : Except PyErr PyIntVal :=
  match buf with
  | [] => .error .structError
  | b :: rest =>
    if b % 2 ^ 8 / 2 ^ 7 = 0 then .ok (.int (b % 2 ^ 7 : ℕ))
    else if b % 2 ^ 8 / 2 ^ 5 = 7 then .ok (.int (signedOf 8 b))
    else
      match markerOfNat b with
      | none => .error .enumValueError
      | some m =>
        match m with
        | .UInt8 =>
          match rest with
          | c :: _ => .ok (.tuple1 c)
          | [] => .error .structError
        | .Int8 =>
          match rest with
          | c :: _ => .ok (.tuple1 (signedOf 8 c))
          | [] => .error .structError
        | .UInt16 =>
          match rest with
          | c :: d :: _ => .ok (.int ((c * 2 ^ 8 + d : ℕ)))
          | _ => .error .structError
        | .Int16 =>
          match rest with
          | c :: d :: _ => .ok (.int (signedOf 16 (c * 2 ^ 8 + d)))
          | _ => .error .structError
        | .UInt32 =>
          match rest with
          | b1 :: b2 :: b3 :: b4 :: _ =>
            .ok (.int ((((b1 * 2 ^ 8 + b2) * 2 ^ 8 + b3) * 2 ^ 8 + b4 : ℕ)))
          | _ => .error .structError
        | .Int32 =>
          match rest with
          | b1 :: b2 :: b3 :: b4 :: _ =>
            .ok (.int (signedOf 32 (((b1 * 2 ^ 8 + b2) * 2 ^ 8 + b3) * 2 ^ 8 + b4)))
          | _ => .error .structError
        | .UInt64 =>
          match rest with
          | b1 :: b2 :: b3 :: b4 :: b5 :: b6 :: b7 :: b8 :: _ =>
            .ok (.int ((((((((b1 * 2 ^ 8 + b2) * 2 ^ 8 + b3) * 2 ^ 8 + b4) * 2 ^ 8
              + b5) * 2 ^ 8 + b6) * 2 ^ 8 + b7) * 2 ^ 8 + b8 : ℕ)))
          | _ => .error .structError
        | .Int64 =>
          match rest with
          | b1 :: b2 :: b3 :: b4 :: b5 :: b6 :: b7 :: b8 :: _ =>
            .ok (.int (signedOf 64 (((((((b1 * 2 ^ 8 + b2) * 2 ^ 8 + b3) * 2 ^ 8 + b4)
              * 2 ^ 8 + b5) * 2 ^ 8 + b6) * 2 ^ 8 + b7) * 2 ^ 8 + b8)))
          | _ => .error .structError
        | _ => .ok .noneVal

end Mpser

namespace Mpser

deriving instance DecidableEq for Except

/-- When the character count of a string fails the encoder's strict
`assert length < 0xFFFFFFFF`, the string branch of `_write_any` raises the
assertion instead of writing anything. -/
theorem writeAnyStr_assert_fires (s : List ℕ) (h : ¬ s.length < 0xFFFFFFFF) :
    writeAnyStr s = .error .assertStrTooLong := by
  unfold writeAnyStr
  exact if_neg h

/-- Claim C1 fails on the code: encoding the integer `-12` through
`_write_any` takes the `value <= 0x7F` branch and emits the single byte
`0x74` (`-12 & 0x7F`), which `read_int` decodes as the positive fixint
`116`, not `-12` — the round-trip law `decode(encode(v)) == v` is
violated. -/
theorem c1_roundtrip_counterexample :
    writeAny (PyVal.int (-12)) = .ok [0x74] ∧
    read_int [0x74] = .ok (.int 116) ∧
    (116 : ℤ) ≠ -12 := by
  refine ⟨?_, by decide, by decide⟩
  simp only [writeAny]
  decide

/-- Claim C2 fails on the code: `_write_any(128)` selects `UInt16`
(`cd 00 80`), not the `uint8` marker `0xCC` the claim requires for
`0x80 ≤ v ≤ 0xFF`, and `_write_any(-33)` emits the positive-fixint byte
`0x5F` (`-33 & 0x7F`) instead of the `int8` encoding `d0 df` — the ladder
has no uint8 step and no negative or signed handling at all. -/
theorem c2_integer_family_counterexample :
    writeAny (PyVal.int 128) = .ok [0xCD, 0x00, 0x80] ∧
    writeAny (PyVal.int (-33)) = .ok [0x5F] := by
  constructor <;> (simp only [writeAny]; decide)

/-- Claim C3 fails on the code: a one-character string (length `1 ≤ 31`)
is written with the `str8` marker `0xD9`, not the fixstr byte `0xA1` the
monotonic ladder requires — `_write_any`'s first string branch sends every
length up to `0xFF` to `Str8`, and (per `writeAnyStr`) the
`0xFFFF < length ≤ 0xFFFFFFFF` branch selects `FixStr` where the claim
requires `str32`. -/
theorem c3_string_family_counterexample :
    writeAny (PyVal.str [65]) = .ok [0xD9, 1, 65] ∧
    write_str [65] .FixStr = [0xA1, 65] ∧
    [0xD9, 1, 65] ≠ [0xA1, 65] := by
  refine ⟨?_, by decide, by decide⟩
  simp only [writeAny]
  decide

/-- Claim C4 fails on the code: for the one-character string `"Д"`
(code point `0x414`), the `str8` length field holds the *character* count
`1` while the two UTF-8 payload bytes `d0 94` follow — the length field
does not equal the number of payload bytes written. -/
theorem c4_length_field_counterexample :
    writeAny (PyVal.str [0x414]) = .ok [0xD9, 1, 0xD0, 0x94] ∧
    (utf8Encode [0x414]).length = 2 ∧
    (1 : ℕ) ≠ 2 := by
  refine ⟨?_, by decide, by decide⟩
  simp only [writeAny]
  decide

/-- Claim C5 fails on the code: Python's `isinstance(value, int)` is
`True` for booleans, so `_write_any(True)` takes the integer branch and
emits the positive-fixint byte `0x01` (and `False` emits `0x00`); the
`write_bool` branch, which would emit `0xC3`/`0xC2`, is unreachable from
`_write_any`. -/
theorem c5_bool_counterexample :
    writeAny (PyVal.bool true) = .ok [0x01] ∧
    writeAny (PyVal.bool false) = .ok [0x00] ∧
    write_bool true = [0xC3] ∧
    write_bool false = [0xC2] := by
  refine ⟨?_, ?_, by decide, by decide⟩ <;> (simp only [writeAny]; decide)

/-- Claim C6 fails on the code: the `UInt8` and `Int8` cases of `read_int`
return the result of `struct.unpack` without indexing `[0]`, so decoding
`cc 2a` yields the 1-tuple `(42,)` — a wrapped structure, not the integer
`42` (and `d0 f4` yields `(-12,)`); the 16/32/64-bit cases do return plain
big-endian integers, as `cd 01 02 ↦ 258` shows. -/
theorem c6_read_int_uint8_counterexample :
    read_int [0xCC, 42] = .ok (.tuple1 42) ∧
    read_int [0xD0, 0xF4] = .ok (.tuple1 (-12)) ∧
    read_int [0xCD, 1, 2] = .ok (.int 258) ∧
    PyIntVal.tuple1 42 ≠ PyIntVal.int 42 := by
  refine ⟨by decide, by decide, by decide, by decide⟩

/-- Claim C7 holds: the four concrete encodings of spec section 8 —
integer `45` as positive fixint `2d`, integer `-12` as negative fixint
`f4`, integer `65538` as uint16 `cd 00 02`, and float `3.14` (the rational
`157/50`) as float32 `ca 40 48 f5 c3`. -/
theorem c7_concrete_encodings :
    write_integer 45 .PositiveFixInt = .ok [0x2D] ∧
    write_integer (-12) .NegativeFixInt = .ok [0xF4] ∧
    write_integer 65538 .UInt16 = .ok [0xCD, 0x00, 0x02] ∧
    write_float false 157 50 .Float32 = .ok [0xCA, 0x40, 0x48, 0xF5, 0xC3] := by
  refine ⟨by decide, by decide, by decide, by decide⟩

/-- Claim C8 fails on the code: reading an empty buffer raises
`struct.error` from `struct.unpack("B", b"")` (no `DecodeError` type with
an `UnexpectedEnd` kind exists), and the byte `0xC1` resolves to the
`UNUSED` enum member, falls through `read_int`'s `match`, and the call
returns `None` — a silent non-result instead of an `UnknownMarker`
error. -/
theorem c8_decode_error_counterexample :
    read_int [] = .error .structError ∧
    read_int [0xC1] = .ok .noneVal := by
  exact ⟨by decide, by decide⟩

/-- Claim C9 fails on the code: the string branch asserts
`length < 0xFFFFFFFF` *strictly*, so a string of length exactly
`2^32 - 1` — which the claim says must encode successfully — raises the
assertion (whose own message claims `length > 0xFFFFFFFF`) instead of
being encoded. -/
theorem c9_string_boundary_counterexample :
    writeAny (PyVal.str (List.replicate (2 ^ 32 - 1) 65)) =
      .error .assertStrTooLong := by
  simp only [writeAny]
  exact writeAnyStr_assert_fires _ (by rw [List.length_replicate]; norm_num)

/-- Claim C10 holds: for every integer value and every marker outside the
ten integer families, `write_integer` appends nothing to the buffer and
raises no error — the initial `assert` passes vacuously and no case of the
`match` applies, so the call falls through as a silent no-op. -/
theorem c10_write_integer_noop (v : ℤ) (t : MsgPackMarker)
    (h : isIntegerMarker t = false) :
    write_integer v t = .ok [] := by
  cases t <;> simp_all [write_integer, isIntegerMarker]

/-- Witness for C10 at the concrete input `v = 5`, `t = Nil`: `Nil` is not
an integer-family marker, and the call writes nothing and succeeds. -/
theorem c10_write_integer_noop_witness :
    isIntegerMarker .Nil = false ∧ write_integer 5 .Nil = .ok [] :=
  ⟨by decide, c10_write_integer_noop 5 .Nil (by decide)⟩

end Mpser
